import Mathlib

/-
  Verification development for the Data Alchemist spreadsheet editor
  (clients/workers/tasks validation engine, natural-language query and
  command parsers, mutation previewer, and rule-recommendation miner).

  The TypeScript source is embedded shallowly:
  * a cell value is a string or a number; JavaScript numbers are
    restricted to integers (every numeric value exercised by the
    checked properties is an integer), with NaN represented as
    Option.none after coercion;
  * the numeric-string coercion (Number(s)) recognizes an optional
    sign followed by decimal digits, with surrounding whitespace, and
    the empty string as 0; other numeric notations (floats, hex,
    exponents) are outside the model;
  * JSON.parse is modelled by an executable recursive-descent parser
    over characters; JSON numbers are restricted to integers and
    string escapes are handled approximately (a backslash makes the
    following character literal), which is faithful on every input
    the checked properties touch;
  * a JavaScript object is an association list keyed by strings with
    insertion order, which also models Map iteration order;
  * Array.prototype.sort with a comparator is modelled by a stable
    insertion sort (stable sorting under a total preorder determines
    the result uniquely);
  * floating-point arithmetic in the recommendation confidences and
    averages is modelled exactly over the rationals.
-/

-- ===========================================================================
-- Cell values, rows, and JavaScript coercions
-- ===========================================================================

/-- A loosely typed spreadsheet cell value: a string or an (integer)
JavaScript number. -/
inductive Value where
  | str (s : String)
  | num (n : Int)
deriving DecidableEq

/-- A row is an ordered mapping from column names to cell values,
mirroring a JavaScript object (insertion order, unique keys). -/
abbrev Row : Type := List (String × Value)

/-- Property access row[field]: the first binding of the key, or
undefined (none) when the column is absent. -/
def lookupField : Row → String → Option Value
  | [], _ => none
  | (k, v) :: rest, f => if k = f then some v else lookupField rest f

/-- JavaScript String(v) for a defined value. -/
def valueToString : Value → String
  | .str s => s
  | .num n => toString n

/-- JavaScript String(x) where x may be undefined:
String(undefined) is the text undefined. -/
def jsStringRaw : Option Value → String
  | none => "undefined"
  | some v => valueToString v

/-- JavaScript truthiness of a defined value: the empty string and the
number 0 are falsy. -/
def truthyV : Value → Bool
  | .str s => s ≠ ""
  | .num n => n ≠ 0

/-- JavaScript String(x || ''): a missing or falsy value collapses to
the empty string. -/
def jsStringOrEmpty : Option Value → String
  | none => ""
  | some v => if truthyV v then valueToString v else ""

/-- Decimal digits to a natural number (the effect of parseInt on a
captured digit string). -/
def natOfDigits (s : String) : Nat :=
  s.data.foldl (fun a c => a * 10 + (c.toNat - '0'.toNat)) 0

/-- All characters are decimal digits and there is at least one. -/
def allDigits1 (cs : List Char) : Bool :=
  !cs.isEmpty && cs.all Char.isDigit

/-- Drop leading and trailing whitespace (JavaScript
String.prototype.trim restricted to ASCII whitespace). -/
def trimChars (cs : List Char) : List Char :=
  (((cs.dropWhile Char.isWhitespace).reverse).dropWhile Char.isWhitespace).reverse

/-- JavaScript String.prototype.trim. -/
def jsTrim (s : String) : String :=
  String.mk (trimChars s.data)

/-- JavaScript String.prototype.toLowerCase (ASCII letters). -/
def toLowerStr (s : String) : String :=
  String.mk (s.data.map Char.toLower)

/-- JavaScript Number(s) on a string: trims whitespace, maps the empty
string to 0, and parses an optionally signed decimal integer; anything
else is NaN (none).  Restriction of the model: non-integer numeric
notations are not recognized. -/
def jsStrToNumber (s : String) : Option Int :=
  let t := jsTrim s
  match t.data with
  | [] => some 0
  | '-' :: ds =>
      if allDigits1 ds then some (-(Int.ofNat (natOfDigits (String.mk ds)))) else none
  | '+' :: ds =>
      if allDigits1 ds then some (Int.ofNat (natOfDigits (String.mk ds))) else none
  | ds =>
      if allDigits1 ds then some (Int.ofNat (natOfDigits (String.mk ds))) else none

/-- JavaScript Number(x) on a possibly-undefined cell value:
Number(undefined) is NaN (none). -/
def jsToNumber : Option Value → Option Int
  | none => none
  | some (.num n) => some n
  | some (.str s) => jsStrToNumber s

-- ===========================================================================
-- Generic list and string helpers
-- ===========================================================================

/-- Concatenation of a list of lists (used to relate a validator run to
its per-row issue blocks). -/
def flattenL {α : Type} : List (List α) → List α
  | [] => []
  | l :: rest => l ++ flattenL rest

/-- Number of occurrences of an element in a list. -/
def countOcc (p : String) : List String → Nat
  | [] => 0
  | x :: rest => (if x = p then 1 else 0) + countOcc p rest

/-- Match a literal character sequence at the front of the input,
returning the rest on success. -/
def listStartsWith : List Char → List Char → Option (List Char)
  | [], cs => some cs
  | _ :: _, [] => none
  | p :: ps, c :: cs => if c = p then listStartsWith ps cs else none

/-- Is the first character list an initial segment of the second? -/
def leadsWith : List Char → List Char → Bool
  | [], _ => true
  | _ :: _, [] => false
  | n :: ns, h :: hs => n = h && leadsWith ns hs

/-- Does the needle occur at some position of the haystack? -/
def strContainsAux (needle : List Char) : List Char → Bool
  | [] => leadsWith needle []
  | c :: hs => leadsWith needle (c :: hs) || strContainsAux needle hs

/-- JavaScript String.prototype.includes. -/
def strContains (hay needle : String) : Bool :=
  strContainsAux needle.data hay.data

-- ===========================================================================
-- JSON values and JSON.parse
-- ===========================================================================

/-- A parsed JSON document (numbers restricted to integers, see the
header notes). -/
inductive Json where
  | null
  | bool (b : Bool)
  | num (n : Int)
  | str (s : String)
  | arr (elems : List Json)
  | obj (fields : List (String × Json))

/-- JSON insignificant whitespace. -/
def isJsonWs (c : Char) : Bool :=
  c = ' ' || c = '\t' || c = '\n' || c = '\r'

/-- Drop leading JSON whitespace. -/
def skipWs : List Char → List Char
  | [] => []
  | c :: rest => if isJsonWs c then skipWs rest else c :: rest

/-- Consume one or more decimal digits, returning their value and the
rest of the input. -/
def takeDigits : List Char → Option (Nat × List Char)
  | cs =>
    let ds := cs.takeWhile Char.isDigit
    if ds.isEmpty then none
    else some (natOfDigits (String.mk ds), cs.dropWhile Char.isDigit)

/-- Parse a JSON number (an optionally negated integer). -/
def parseJsonNumber (cs : List Char) : Option (Json × List Char) :=
  match cs with
  | '-' :: rest => (takeDigits rest).map (fun p => (Json.num (-(Int.ofNat p.1)), p.2))
  | _ => (takeDigits cs).map (fun p => (Json.num (Int.ofNat p.1), p.2))

/-- Parse the body of a JSON string after the opening quote.  A
backslash makes the following character literal. -/
def parseJsonString : Nat → List Char → Option (String × List Char)
  | 0, _ => none
  | _, [] => none
  | fuel + 1, c :: rest =>
    if c = '"' then some ("", rest)
    else if c = '\\' then
      match rest with
      | [] => none
      | e :: rest2 => (parseJsonString fuel rest2).map (fun p => (String.mk (e :: p.1.data), p.2))
    else (parseJsonString fuel rest).map (fun p => (String.mk (c :: p.1.data), p.2))

mutual

/-- Parse one JSON value (leading whitespace allowed). -/
def parseJsonValue : Nat → List Char → Option (Json × List Char)
  | 0, _ => none
  | fuel + 1, cs =>
    match skipWs cs with
    | [] => none
    | 'n' :: 'u' :: 'l' :: 'l' :: rest => some (Json.null, rest)
    | 't' :: 'r' :: 'u' :: 'e' :: rest => some (Json.bool true, rest)
    | 'f' :: 'a' :: 'l' :: 's' :: 'e' :: rest => some (Json.bool false, rest)
    | '"' :: rest => (parseJsonString (fuel + 1) rest).map (fun p => (Json.str p.1, p.2))
    | '[' :: rest => parseJsonArrayBody fuel rest
    | c :: rest =>
        if c = Char.ofNat 123 then parseJsonObjBody fuel rest
        else parseJsonNumber (c :: rest)

/-- Parse an array body after the opening bracket. -/
def parseJsonArrayBody : Nat → List Char → Option (Json × List Char)
  | 0, _ => none
  | fuel + 1, cs =>
    match skipWs cs with
    | ']' :: rest => some (Json.arr [], rest)
    | cs2 =>
      match parseJsonValue fuel cs2 with
      | none => none
      | some (v, rest) => parseJsonArrayTail fuel [v] rest

/-- Parse the remaining elements of an array after at least one
element. -/
def parseJsonArrayTail : Nat → List Json → List Char → Option (Json × List Char)
  | 0, _, _ => none
  | fuel + 1, acc, cs =>
    match skipWs cs with
    | ']' :: rest => some (Json.arr acc, rest)
    | ',' :: rest =>
      match parseJsonValue fuel rest with
      | none => none
      | some (v, rest2) => parseJsonArrayTail fuel (acc ++ [v]) rest2
    | _ => none

/-- Parse an object body after the opening brace. -/
def parseJsonObjBody : Nat → List Char → Option (Json × List Char)
  | 0, _ => none
  | fuel + 1, cs =>
    match skipWs cs with
    | c :: rest =>
      if c = Char.ofNat 125 then some (Json.obj [], rest)
      else
        match parseJsonMember fuel (c :: rest) with
        | none => none
        | some (k, v, rest2) => parseJsonObjTail fuel [(k, v)] rest2
    | [] => none

/-- Parse one key-value member of an object. -/
def parseJsonMember : Nat → List Char → Option (String × Json × List Char)
  | 0, _ => none
  | fuel + 1, cs =>
    match skipWs cs with
    | '"' :: rest =>
      match parseJsonString (fuel + 1) rest with
      | none => none
      | some (k, rest2) =>
        match skipWs rest2 with
        | ':' :: rest3 =>
          match parseJsonValue fuel rest3 with
          | none => none
          | some (v, rest4) => some (k, v, rest4)
        | _ => none
    | _ => none

/-- Parse the remaining members of an object after at least one
member. -/
def parseJsonObjTail : Nat → List (String × Json) → List Char → Option (Json × List Char)
  | 0, _, _ => none
  | fuel + 1, acc, cs =>
    match skipWs cs with
    | c :: rest =>
      if c = Char.ofNat 125 then some (Json.obj acc, rest)
      else
        match c :: rest with
        | ',' :: rest2 =>
          match parseJsonMember fuel rest2 with
          | none => none
          | some (k, v, rest3) => parseJsonObjTail fuel (acc ++ [(k, v)]) rest3
        | _ => none
    | [] => none

end

/-- JSON.parse on a whole string: succeeds when one value parses and
only whitespace remains. -/
def jsonParse (s : String) : Option Json :=
  match parseJsonValue (s.length + 1) s.data with
  | some (v, rest) => if skipWs rest = [] then some v else none
  | none => none

/-- JavaScript Number(x) on a parsed JSON value (used for the
Number.isInteger(Number(slot)) element tests).  The single-element
array case recursively models Number([x]) = Number(String([x])). -/
def jsNumberOfJson : Json → Option Int
  | .num n => some n
  | .str s => jsStrToNumber s
  | .bool b => some (if b then 1 else 0)
  | .null => some 0
  | .arr [] => some 0
  | .arr [x] => jsNumberOfJson x
  | .arr _ => none
  | .obj _ => none

/-- Array.isArray(parsed) and every element coerces to an integer. -/
def jsonIntArray : Json → Bool
  | .arr xs => xs.all (fun x => (jsNumberOfJson x).isSome)
  | _ => false

-- ===========================================================================
-- Validation engine: messages
-- ===========================================================================

/-- Common prefix of every per-row issue message. -/
def rowPre (n : Nat) : String :=
  "Row " ++ (toString n ++ ": ")

/-- A per-row issue message: row-number prefix followed by the
check-specific tail. -/
def rowMsg (n : Nat) (tail : String) : String :=
  rowPre n ++ tail

/-- Tail of a duplicate-identity-key message, for the given key column
label. -/
def dupTail (tag k : String) : String :=
  "Duplicate " ++ (tag ++ (" \"" ++ (k ++ "\"")))

def clientPriorityTail (x : String) : String :=
  "PriorityLevel must be 1-5, got \"" ++ (x ++ "\"")

def clientTaskIdsTail (t : String) : String :=
  "RequestedTaskIDs should be comma-separated T-prefixed IDs, got \"" ++ (t ++ "\"")

def clientJsonTail (a : String) : String :=
  "Invalid JSON in AttributesJSON: \"" ++ (a ++ "\"")

def workerSlotsArrTail (s : String) : String :=
  "AvailableSlots should be array of numbers, got \"" ++ (s ++ "\"")

def workerSlotsJsonTail (s : String) : String :=
  "AvailableSlots should be valid JSON array, got \"" ++ (s ++ "\"")

def workerMaxLoadTail (x : String) : String :=
  "MaxLoadPerPhase must be >= 0, got \"" ++ (x ++ "\"")

def workerQualTail (x : String) : String :=
  "QualificationLevel must be 1-5, got \"" ++ (x ++ "\"")

def taskDurationTail (x : String) : String :=
  "Duration must be > 0, got \"" ++ (x ++ "\"")

def taskPhasesArrTail (p : String) : String :=
  "PreferredPhases should be array of numbers, got \"" ++ (p ++ "\"")

def taskPhasesFmtTail (p : String) : String :=
  "PreferredPhases should be JSON array or range format, got \"" ++ (p ++ "\"")

def taskMaxConcTail (x : String) : String :=
  "MaxConcurrent must be > 0, got \"" ++ (x ++ "\"")

-- ===========================================================================
-- Validation engine: format checks on delimited identifier fields
-- ===========================================================================

/-- One T-prefixed identifier: the letter T followed by one or more
digits; returns the rest of the input. -/
def tGroup : List Char → Option (List Char)
  | 'T' :: rest => (takeDigits rest).map Prod.snd
  | _ => none

/-- After one complete identifier: either the end of the string or a
comma followed by another identifier, repeatedly. -/
def taskIdsLoop : Nat → List Char → Bool
  | 0, _ => false
  | _ + 1, [] => true
  | fuel + 1, ',' :: rest =>
      match tGroup rest with
      | some r => taskIdsLoop fuel r
      | none => false
  | _ + 1, _ => false

/-- The anchored pattern T digits (comma T digits)* over the whole
string. -/
def taskIdsFormat (s : String) : Bool :=
  match tGroup s.data with
  | some r => taskIdsLoop (s.length + 1) r
  | none => false

/-- The anchored pattern digits dash digits over the whole string. -/
def digitRangeFormat (s : String) : Bool :=
  match takeDigits s.data with
  | some (_, '-' :: rest) =>
      (match takeDigits rest with
       | some (_, []) => true
       | _ => false)
  | _ => false

-- ===========================================================================
-- Validation engine: per-row checks of each dataset kind
-- ===========================================================================

/-- Number(row.PriorityLevel) is NaN or outside the closed range 1..5. -/
def clientPriorityBad (row : Row) : Bool :=
  match jsToNumber (lookupField row "PriorityLevel") with
  | none => true
  | some p => p < 1 || p > 5

def clientPriorityCheck (n : Nat) (row : Row) : List String :=
  if clientPriorityBad row then
    [rowMsg n (clientPriorityTail (jsStringRaw (lookupField row "PriorityLevel")))]
  else []

/-- Coerced RequestedTaskIDs is nonempty and fails the delimited
T-identifier format. -/
def clientTaskIdsBad (row : Row) : Bool :=
  let t := jsStringOrEmpty (lookupField row "RequestedTaskIDs")
  t ≠ "" && !(taskIdsFormat t)

def clientTaskIdsCheck (n : Nat) (row : Row) : List String :=
  if clientTaskIdsBad row then
    [rowMsg n (clientTaskIdsTail (jsStringOrEmpty (lookupField row "RequestedTaskIDs")))]
  else []

/-- Coerced AttributesJSON is nonempty, is not the INVALID_JSON
sentinel, and fails to parse as JSON. -/
def clientJsonBad (row : Row) : Bool :=
  let a := jsStringOrEmpty (lookupField row "AttributesJSON")
  a ≠ "" && a ≠ "INVALID_JSON" && (jsonParse a).isNone

def clientJsonCheck (n : Nat) (row : Row) : List String :=
  if clientJsonBad row then
    [rowMsg n (clientJsonTail (jsStringOrEmpty (lookupField row "AttributesJSON")))]
  else []

/-- The non-duplicate checks of one clients row, in source order. -/
def clientChecks (n : Nat) (row : Row) : List String :=
  clientPriorityCheck n row ++ (clientTaskIdsCheck n row ++ clientJsonCheck n row)

/-- AvailableSlots check of one workers row: skipped when empty or the
not_a_list sentinel; a JSON parse failure and a non-integer-array
result give different messages. -/
def workerSlotsCheck (n : Nat) (row : Row) : List String :=
  let s := jsStringOrEmpty (lookupField row "AvailableSlots")
  if s = "" || s = "not_a_list" then []
  else
    match jsonParse s with
    | some j => if jsonIntArray j then [] else [rowMsg n (workerSlotsArrTail s)]
    | none => [rowMsg n (workerSlotsJsonTail s)]

/-- The AvailableSlots check passes (emits nothing). -/
def workerSlotsOk (row : Row) : Bool :=
  let s := jsStringOrEmpty (lookupField row "AvailableSlots")
  s = "" || s = "not_a_list" ||
    (match jsonParse s with
     | some j => jsonIntArray j
     | none => false)

/-- Number(row.MaxLoadPerPhase) is NaN or negative. -/
def workerMaxLoadBad (row : Row) : Bool :=
  match jsToNumber (lookupField row "MaxLoadPerPhase") with
  | none => true
  | some m => m < 0

def workerMaxLoadCheck (n : Nat) (row : Row) : List String :=
  if workerMaxLoadBad row then
    [rowMsg n (workerMaxLoadTail (jsStringRaw (lookupField row "MaxLoadPerPhase")))]
  else []

/-- Number(row.QualificationLevel) is NaN or outside 1..5. -/
def workerQualBad (row : Row) : Bool :=
  match jsToNumber (lookupField row "QualificationLevel") with
  | none => true
  | some q => q < 1 || q > 5

def workerQualCheck (n : Nat) (row : Row) : List String :=
  if workerQualBad row then
    [rowMsg n (workerQualTail (jsStringRaw (lookupField row "QualificationLevel")))]
  else []

/-- The non-duplicate checks of one workers row, in source order. -/
def workerChecks (n : Nat) (row : Row) : List String :=
  workerSlotsCheck n row ++ (workerMaxLoadCheck n row ++ workerQualCheck n row)

/-- Number(row.Duration) is NaN or not positive. -/
def taskDurationBad (row : Row) : Bool :=
  match jsToNumber (lookupField row "Duration") with
  | none => true
  | some d => d ≤ 0

def taskDurationCheck (n : Nat) (row : Row) : List String :=
  if taskDurationBad row then
    [rowMsg n (taskDurationTail (jsStringRaw (lookupField row "Duration")))]
  else []

/-- PreferredPhases check of one tasks row: skipped when empty or the
sentinel 7; JSON array of integers, else the digits-dash-digits range
shorthand. -/
def taskPhasesCheck (n : Nat) (row : Row) : List String :=
  let p := jsStringOrEmpty (lookupField row "PreferredPhases")
  if p = "" || p = "7" then []
  else
    match jsonParse p with
    | some j => if jsonIntArray j then [] else [rowMsg n (taskPhasesArrTail p)]
    | none => if digitRangeFormat p then [] else [rowMsg n (taskPhasesFmtTail p)]

/-- Number(row.MaxConcurrent) is NaN or not positive. -/
def taskMaxConcBad (row : Row) : Bool :=
  match jsToNumber (lookupField row "MaxConcurrent") with
  | none => true
  | some m => m ≤ 0

def taskMaxConcCheck (n : Nat) (row : Row) : List String :=
  if taskMaxConcBad row then
    [rowMsg n (taskMaxConcTail (jsStringRaw (lookupField row "MaxConcurrent")))]
  else []

/-- The non-duplicate checks of one tasks row, in source order. -/
def taskChecks (n : Nat) (row : Row) : List String :=
  taskDurationCheck n row ++ (taskPhasesCheck n row ++ taskMaxConcCheck n row)

-- ===========================================================================
-- Validation engine: duplicate-key scan and the three validators
-- ===========================================================================

/-- What varies between the three per-dataset validators: the identity
key column, its label in the duplicate message, and the remaining
per-row checks. -/
structure ScanCfg where
  keyField : String
  dupTag : String
  checks : Nat → Row → List String

/-- The coerced identity key of a row: String(row[keyField] || ''). -/
def rowKey (cfg : ScanCfg) (row : Row) : String :=
  jsStringOrEmpty (lookupField row cfg.keyField)

/-- The duplicate-key issue message. -/
def dupIssue (cfg : ScanCfg) (n : Nat) (k : String) : String :=
  rowMsg n (dupTail cfg.dupTag k)

/-- The issues one row contributes given the identity keys already
seen: the duplicate check (truthy key already present), then the other
checks, in source order. -/
def rowIssues (cfg : ScanCfg) (seen : List String) (n : Nat) (row : Row) : List String :=
  (if rowKey cfg row ≠ "" ∧ rowKey cfg row ∈ seen then [dupIssue cfg n (rowKey cfg row)] else [])
    ++ cfg.checks n row

/-- The seen-set update: a truthy key not yet present is added. -/
def nextSeen (seen : List String) (k : String) : List String :=
  if k ≠ "" ∧ k ∉ seen then seen ++ [k] else seen

/-- The row loop of a validator (data.forEach with the Set of seen
identity keys threaded through). -/
def scanRows (cfg : ScanCfg) : List String → Nat → List Row → List String
  | _, _, [] => []
  | seen, n, row :: rest =>
      rowIssues cfg seen n row ++ scanRows cfg (nextSeen seen (rowKey cfg row)) (n + 1) rest

/-- The same loop keeping each row's issues as a separate block. -/
def rowBlocksAux (cfg : ScanCfg) : List String → Nat → List Row → List (List String)
  | _, _, [] => []
  | seen, n, row :: rest =>
      rowIssues cfg seen n row :: rowBlocksAux cfg (nextSeen seen (rowKey cfg row)) (n + 1) rest

/-- Object.keys(data[0]).includes(col). -/
def rowHasKey (row : Row) (c : String) : Bool :=
  decide (c ∈ row.map Prod.fst)

/-- The aggregate missing-required-columns check against the first
row's column set. -/
def missingColumnsCheck (required : List String) (data : List Row) : List String :=
  match data with
  | [] => []
  | row :: _ =>
      let missing := required.filter (fun c => !(rowHasKey row c))
      if missing.isEmpty then []
      else ["Missing required columns: " ++ String.intercalate ", " missing]

def clientRequiredColumns : List String :=
  ["ClientID", "ClientName", "PriorityLevel", "RequestedTaskIDs", "GroupTag", "AttributesJSON"]

def workerRequiredColumns : List String :=
  ["WorkerID", "WorkerName", "Skills", "AvailableSlots", "MaxLoadPerPhase", "WorkerGroup",
   "QualificationLevel"]

def taskRequiredColumns : List String :=
  ["TaskID", "TaskName", "Category", "Duration", "RequiredSkills", "PreferredPhases",
   "MaxConcurrent"]

def clientCfg : ScanCfg := ⟨"ClientID", "ClientID", clientChecks⟩

def workerCfg : ScanCfg := ⟨"WorkerID", "WorkerID", workerChecks⟩

def taskCfg : ScanCfg := ⟨"TaskID", "TaskID", taskChecks⟩

/-- validateClientData: aggregate missing-columns issue, then the
per-row issues in row order. -/
def validateClientData (data : List Row) : List String :=
  missingColumnsCheck clientRequiredColumns data ++ scanRows clientCfg [] 1 data

/-- validateWorkerData. -/
def validateWorkerData (data : List Row) : List String :=
  missingColumnsCheck workerRequiredColumns data ++ scanRows workerCfg [] 1 data

/-- validateTaskData. -/
def validateTaskData (data : List Row) : List String :=
  missingColumnsCheck taskRequiredColumns data ++ scanRows taskCfg [] 1 data

/-- The three dataset kinds. -/
inductive DatasetType where
  | clients
  | workers
  | tasks
deriving DecidableEq

/-- validateDataset routes to the validator of the dataset kind. -/
def validateDataset (datasetType : DatasetType) (data : List Row) : List String :=
  match datasetType with
  | .clients => validateClientData data
  | .workers => validateWorkerData data
  | .tasks => validateTaskData data

def dsCfg : DatasetType → ScanCfg
  | .clients => clientCfg
  | .workers => workerCfg
  | .tasks => taskCfg

def dsRequired : DatasetType → List String
  | .clients => clientRequiredColumns
  | .workers => workerRequiredColumns
  | .tasks => taskRequiredColumns

/-- The identity key of a row under a dataset kind. -/
def dsKey (t : DatasetType) (row : Row) : String :=
  rowKey (dsCfg t) row

/-- The per-row issue blocks of a full validator run. -/
def dsBlocks (t : DatasetType) (data : List Row) : List (List String) :=
  rowBlocksAux (dsCfg t) [] 1 data

/-- The issue block of the i-th row (empty out of range). -/
def blockAt (t : DatasetType) (data : List Row) (i : Nat) : List String :=
  (dsBlocks t data).getD i []

/-- The seen-set in force when the scan reaches the i-th row. -/
def seenOf (cfg : ScanCfg) (data : List Row) (i : Nat) : List String :=
  ((data.take i).map (rowKey cfg)).foldl nextSeen []

-- ===========================================================================
-- Natural-language query parser
-- ===========================================================================

/-- JavaScript regex word character class. -/
def isWordChar (c : Char) : Bool :=
  c.isAlpha || c.isDigit || c = '_'

/-- Skip zero or more whitespace characters. -/
def wsStar (cs : List Char) : List Char :=
  cs.dropWhile Char.isWhitespace

/-- Take the longest nonempty run of characters in a class, returning
the capture. -/
def captureClass (cls : Char → Bool) (cs : List Char) : Option (String × List Char) :=
  let taken := cs.takeWhile cls
  if taken.isEmpty then none else some (String.mk taken, cs.dropWhile cls)

/-- Match the pattern word whitespace* op whitespace* (class+) at the
front of the input, returning the capture. -/
def matchKeyOpCapture (word : String) (op : Char) (cls : Char → Bool) (cs : List Char) :
    Option String :=
  match listStartsWith word.data cs with
  | none => none
  | some r1 =>
    match listStartsWith [op] (wsStar r1) with
    | none => none
    | some r2 => (captureClass cls (wsStar r2)).map Prod.fst

/-- Leftmost unanchored regex search: try the matcher at each position
from the left. -/
def regexSearch {α : Type} (m : List Char → Option α) : List Char → Option α
  | [] => m []
  | c :: rest =>
      match m (c :: rest) with
      | some v => some v
      | none => regexSearch m rest

/-- Search for word whitespace* op whitespace* (class+) anywhere in the
string. -/
def searchPattern (word : String) (op : Char) (cls : Char → Bool) (s : String) :
    Option String :=
  regexSearch (matchKeyOpCapture word op cls) s.data

/-- Row filter for the numeric greater-than patterns:
Number(row[field]) > parseInt(capture); NaN fails. -/
def numGtFilter (field : String) (v : Nat) (row : Row) : Bool :=
  match jsToNumber (lookupField row field) with
  | some n => (v : Int) < n
  | none => false

/-- Row filter for the numeric less-than patterns. -/
def numLtFilter (field : String) (v : Nat) (row : Row) : Bool :=
  match jsToNumber (lookupField row field) with
  | some n => n < (v : Int)
  | none => false

/-- String(row.GroupTag || row.WorkerGroup || ""). -/
def groupFieldString (row : Row) : String :=
  match lookupField row "GroupTag" with
  | some v =>
      if truthyV v then valueToString v
      else
        (match lookupField row "WorkerGroup" with
         | some w => if truthyV w then valueToString w else ""
         | none => "")
  | none =>
      match lookupField row "WorkerGroup" with
      | some w => if truthyV w then valueToString w else ""
      | none => ""

/-- Row filter of the group pattern: case-insensitive substring test on
the group columns. -/
def groupFilter (g : String) (row : Row) : Bool :=
  strContains (toLowerStr (groupFieldString row)) (toLowerStr g)

/-- String(row.Skills || row.RequiredSkills || ""). -/
def skillsFieldString (row : Row) : String :=
  match lookupField row "Skills" with
  | some v =>
      if truthyV v then valueToString v
      else
        (match lookupField row "RequiredSkills" with
         | some w => if truthyV w then valueToString w else ""
         | none => "")
  | none =>
      match lookupField row "RequiredSkills" with
      | some w => if truthyV w then valueToString w else ""
      | none => ""

/-- Row filter of the skills pattern: trimmed, case-insensitive
substring test on the skills columns. -/
def skillsFilter (g : String) (row : Row) : Bool :=
  strContains (toLowerStr (skillsFieldString row)) (toLowerStr (jsTrim g))

/-- The fixed ordered pattern table: the first pattern that matches the
lowercased query yields the only filter applied. -/
def queryFilter (lq : String) : Option (Row → Bool) :=
  match searchPattern "priority" '>' Char.isDigit lq with
  | some v => some (numGtFilter "PriorityLevel" (natOfDigits v))
  | none =>
    match searchPattern "priority" '<' Char.isDigit lq with
    | some v => some (numLtFilter "PriorityLevel" (natOfDigits v))
    | none =>
      match searchPattern "duration" '>' Char.isDigit lq with
      | some v => some (numGtFilter "Duration" (natOfDigits v))
      | none =>
        match searchPattern "duration" '<' Char.isDigit lq with
        | some v => some (numLtFilter "Duration" (natOfDigits v))
        | none =>
          match searchPattern "group" '=' isWordChar lq with
          | some g => some (groupFilter g)
          | none =>
            match searchPattern "skills" '=' (fun c => c ≠ ',') lq with
            | some g => some (skillsFilter g)
            | none => none

/-- Fallback substring search across all stringified field values. -/
def fallbackFilter (lq : String) (row : Row) : Bool :=
  row.any (fun p => strContains (toLowerStr (valueToString p.2)) lq)

/-- parseNaturalLanguageQuery: identity on blank queries or empty data;
otherwise the first matching pattern's filter, or the fallback
substring search. -/
def parseNaturalLanguageQuery (query : String) (data : List Row) : List Row :=
  if jsTrim query = "" ∨ data = [] then data
  else
    let lowerQuery := toLowerStr query
    match queryFilter lowerQuery with
    | some f => data.filter f
    | none => data.filter (fallbackFilter lowerQuery)

-- ===========================================================================
-- Natural-language modification command parser
-- ===========================================================================

/-- Condition operators of a parsed modification command. -/
inductive CondOperator where
  | equals
  | contains
  | greater
  | less
deriving DecidableEq

/-- Optional condition of a parsed modification command. -/
structure CmdCondition where
  field : String
  operator : CondOperator
  value : Value
deriving DecidableEq

/-- A parsed modification command. -/
structure ModificationCommand where
  action : String
  field : String
  value : Value
  condition : Option CmdCondition
  dataset : DatasetType
deriving DecidableEq

/-- Skip one or more whitespace characters. -/
def wsPlus : List Char → Option (List Char)
  | [] => none
  | c :: rest => if c.isWhitespace then some (wsStar rest) else none

/-- Consume an optional literal character. -/
def optChar (c : Char) : List Char → List Char
  | [] => []
  | x :: rest => if x = c then rest else x :: rest

/-- Template 1 at a position:
change all prioritylevels? to (digits). -/
def matchCmd1At (cs : List Char) : Option Nat :=
  match listStartsWith "change".data cs with
  | none => none
  | some r1 =>
    match wsPlus r1 with
    | none => none
    | some r2 =>
      match listStartsWith "all".data r2 with
      | none => none
      | some r3 =>
        match wsPlus r3 with
        | none => none
        | some r4 =>
          match listStartsWith "prioritylevel".data r4 with
          | none => none
          | some r5 =>
            match wsPlus (optChar 's' r5) with
            | none => none
            | some r6 =>
              match listStartsWith "to".data r6 with
              | none => none
              | some r7 =>
                match wsPlus r7 with
                | none => none
                | some r8 => (captureClass Char.isDigit r8).map (fun p => natOfDigits p.1)

/-- Template 2 at a position:
set maxloadperphase to (digits) for (word) workers?. -/
def matchCmd2At (cs : List Char) : Option (Nat × String) :=
  match listStartsWith "set".data cs with
  | none => none
  | some r1 =>
    match wsPlus r1 with
    | none => none
    | some r2 =>
      match listStartsWith "maxloadperphase".data r2 with
      | none => none
      | some r3 =>
        match wsPlus r3 with
        | none => none
        | some r4 =>
          match listStartsWith "to".data r4 with
          | none => none
          | some r5 =>
            match wsPlus r5 with
            | none => none
            | some r6 =>
              match captureClass Char.isDigit r6 with
              | none => none
              | some (d, r7) =>
                match wsPlus r7 with
                | none => none
                | some r8 =>
                  match listStartsWith "for".data r8 with
                  | none => none
                  | some r9 =>
                    match wsPlus r9 with
                    | none => none
                    | some r10 =>
                      match captureClass isWordChar r10 with
                      | none => none
                      | some (g, r11) =>
                        match wsPlus r11 with
                        | none => none
                        | some r12 =>
                          match listStartsWith "worker".data r12 with
                          | none => none
                          | some _ => some (natOfDigits d, g)

/-- Template 3 at a position:
update all (word) clients? priority to (digits). -/
def matchCmd3At (cs : List Char) : Option (String × Nat) :=
  match listStartsWith "update".data cs with
  | none => none
  | some r1 =>
    match wsPlus r1 with
    | none => none
    | some r2 =>
      match listStartsWith "all".data r2 with
      | none => none
      | some r3 =>
        match wsPlus r3 with
        | none => none
        | some r4 =>
          match captureClass isWordChar r4 with
          | none => none
          | some (g, r5) =>
            match wsPlus r5 with
            | none => none
            | some r6 =>
              match listStartsWith "client".data r6 with
              | none => none
              | some r7 =>
                match wsPlus (optChar 's' r7) with
                | none => none
                | some r8 =>
                  match listStartsWith "priority".data r8 with
                  | none => none
                  | some r9 =>
                    match wsPlus r9 with
                    | none => none
                    | some r10 =>
                      match listStartsWith "to".data r10 with
                      | none => none
                      | some r11 =>
                        match wsPlus r11 with
                        | none => none
                        | some r12 =>
                          (captureClass Char.isDigit r12).map (fun p => (g, natOfDigits p.1))

/-- AIService.parseModificationCommand: lowercase the command, then try
the three sentence templates in order. -/
def parseModificationCommand (command : String) : Option ModificationCommand :=
  let lowerCommand := toLowerStr command
  match regexSearch matchCmd1At lowerCommand.data with
  | some v =>
      some { action := "change", field := "PriorityLevel", value := .num (Int.ofNat v),
             condition := none, dataset := .clients }
  | none =>
    match regexSearch matchCmd2At lowerCommand.data with
    | some (v, g) =>
        some { action := "set", field := "MaxLoadPerPhase", value := .num (Int.ofNat v),
               condition := some { field := "WorkerGroup", operator := .equals, value := .str g },
               dataset := .workers }
    | none =>
      match regexSearch matchCmd3At lowerCommand.data with
      | some (g, v) =>
          some { action := "update", field := "PriorityLevel", value := .num (Int.ofNat v),
                 condition := some { field := "GroupTag", operator := .equals, value := .str g },
                 dataset := .clients }
      | none => none

-- ===========================================================================
-- Mutation previewer
-- ===========================================================================

/-- JavaScript Number(value) on a command value (string or number). -/
def valueToNumber : Value → Option Int
  | .num n => some n
  | .str s => jsStrToNumber s

/-- Evaluate a command condition on a row with the source's
per-operator coercions. -/
def evalCondition (cond : CmdCondition) (row : Row) : Bool :=
  let rowValue := lookupField row cond.field
  match cond.operator with
  | .equals => jsStringRaw rowValue = valueToString cond.value
  | .contains =>
      strContains (toLowerStr (jsStringRaw rowValue)) (toLowerStr (valueToString cond.value))
  | .greater =>
      match jsToNumber rowValue, valueToNumber cond.value with
      | some a, some b => b < a
      | _, _ => false
  | .less =>
      match jsToNumber rowValue, valueToNumber cond.value with
      | some a, some b => a < b
      | _, _ => false

/-- Object spread followed by assignment of one field: replace the
first binding in place, or append a new binding. -/
def setField : Row → String → Value → Row
  | [], f, v => [(f, v)]
  | (k, w) :: rest, f, v =>
      if k = f then (f, v) :: rest else (k, w) :: setField rest f v

/-- The per-row preview computation of handleCommandSubmit: overwrite
the command's single target field when the condition is satisfied (or
when there is none), else return the spread copy unchanged. -/
def previewRow (cmd : ModificationCommand) (row : Row) : Row :=
  let shouldUpdate :=
    match cmd.condition with
    | none => true
    | some c => evalCondition c row
  if shouldUpdate then setField row cmd.field cmd.value else row

/-- The preview computation of handleCommandSubmit over every current
row. -/
def previewRows (cmd : ModificationCommand) (currentData : List Row) : List Row :=
  currentData.map (previewRow cmd)

-- ===========================================================================
-- Rule recommendation miner
-- ===========================================================================

/-- The three uploaded tables. -/
structure Datasets where
  clients : List Row
  workers : List Row
  tasks : List Row

/-- Parameter bag of a rule recommendation. -/
inductive RecParams where
  | taskIds (task1 task2 : String)
  | loadLimit (group : String) (maxLoad : Int)
deriving DecidableEq

/-- An AI rule recommendation (confidence is a float, modelled exactly
over the rationals). -/
structure RuleRecommendation where
  id : String
  rtype : String
  description : String
  confidence : ℚ
  reasoning : String
  params : RecParams
deriving DecidableEq

/-- Split on a single-character separator (JavaScript
String.prototype.split with a one-character string). -/
def splitOnChar (sep : Char) : List Char → List (List Char)
  | [] => [[]]
  | c :: rest =>
      let r := splitOnChar sep rest
      if c = sep then [] :: r
      else
        match r with
        | [] => [[c]]
        | h :: t => (c :: h) :: t

/-- String(client.RequestedTaskIDs || '').split(',').filter(Boolean). -/
def splitIds (s : String) : List String :=
  ((splitOnChar ',' s.data).map String.mk).filter (fun x => x ≠ "")

/-- All position-ordered pairs within one row's identifier list, joined
with a dash, in the source's nested-loop order. -/
def rowPairs : List String → List String
  | [] => []
  | x :: rest => rest.map (fun y => x ++ ("-" ++ y)) ++ rowPairs rest

/-- The dash-joined pair keys of every clients row, in scan order. -/
def allPairs (clients : List Row) : List String :=
  clients.flatMap (fun c => rowPairs (splitIds (jsStringOrEmpty (lookupField c "RequestedTaskIDs"))))

/-- Map.set(pair, (Map.get(pair) || 0) + 1): increment in place or
append a fresh entry, preserving insertion order. -/
def bumpPair (m : List (String × Nat)) (p : String) : List (String × Nat) :=
  match m with
  | [] => [(p, 1)]
  | (q, c) :: rest => if q = p then (q, c + 1) :: rest else (q, c) :: bumpPair rest p

/-- The task co-occurrence tally over the clients dataset. -/
def taskCooccurrence (clients : List Row) : List (String × Nat) :=
  (allPairs clients).foldl bumpPair []

/-- The count recorded for a pair key (0 when absent). -/
def tallyCount (p : String) : List (String × Nat) → Nat
  | [] => 0
  | (q, c) :: rest => if q = p then c else tallyCount p rest

/-- Stable insertion into a descending-by-count list: a later element
goes after every earlier element with an equal or larger count. -/
def insStable (acc : List (String × Nat)) (x : String × Nat) : List (String × Nat) :=
  match acc with
  | [] => [x]
  | y :: rest => if y.2 < x.2 then x :: y :: rest else y :: insStable rest x

/-- Array.prototype.sort((a, b) => b[1] - a[1]): stable sort by count
descending. -/
def sortByCountDesc (l : List (String × Nat)) : List (String × Nat) :=
  l.foldl insStable []

/-- Math.min over the rationals. -/
def ratMin (a b : ℚ) : ℚ :=
  if a ≤ b then a else b

/-- Build one coRun recommendation from a kept pair key and its count;
confidence is min(count / 5, 0.9). -/
def mkCoRunRec (pair : String) (count : Nat) : RuleRecommendation :=
  let parts := (splitOnChar '-' pair.data).map String.mk
  let task1 := parts.getD 0 "undefined"
  let task2 := parts.getD 1 "undefined"
  { id := "coRun-" ++ (task1 ++ ("-" ++ task2)),
    rtype := "coRun",
    description := "Tasks " ++ (task1 ++ (" and " ++ (task2 ++ (" often co-occur (" ++
      (toString count ++ " times)"))))),
    confidence := ratMin ((count : ℚ) / 5) (9 / 10),
    reasoning := "Found " ++ (toString count ++ " clients requesting both tasks together"),
    params := .taskIds task1 task2 }

/-- The coRun recommendations: top three pairs by descending count,
kept when the count is at least 2. -/
def coRunRecommendations (clients : List Row) : List RuleRecommendation :=
  ((sortByCountDesc (taskCooccurrence clients)).take 3).filterMap
    (fun pc => if 2 ≤ pc.2 then some (mkCoRunRec pc.1 pc.2) else none)

/-- NaN-absorbing addition of JavaScript numbers. -/
def jsAdd : Option Int → Option Int → Option Int
  | some a, some b => some (a + b)
  | _, _ => none

/-- Number(worker.MaxLoadPerPhase || 0): falsy cells count as load 0. -/
def workerLoad (row : Row) : Option Int :=
  match lookupField row "MaxLoadPerPhase" with
  | none => some 0
  | some v => if truthyV v then jsToNumber (some v) else some 0

/-- Per-group running (total, count) map in insertion order. -/
def bumpGroup (m : List (String × (Option Int × Nat))) (g : String) (load : Option Int) :
    List (String × (Option Int × Nat)) :=
  match m with
  | [] => [(g, (load, 1))]
  | (q, tc) :: rest =>
      if q = g then (q, (jsAdd tc.1 load, tc.2 + 1)) :: rest
      else (q, tc) :: bumpGroup rest g load

/-- Group the workers by WorkerGroup, accumulating load totals. -/
def groupLoads (workers : List Row) : List (String × (Option Int × Nat)) :=
  workers.foldl
    (fun m w => bumpGroup m (jsStringOrEmpty (lookupField w "WorkerGroup")) (workerLoad w)) []

/-- Approximate rendering of Number.prototype.toFixed(1) for the
nonnegative averages that reach it. -/
def toFixed1 (q : ℚ) : String :=
  let n : Int := ⌊q * 10 + 1 / 2⌋
  toString (n / 10) ++ ("." ++ toString ((n % 10).natAbs))

/-- The loadLimit recommendations: groups whose average MaxLoadPerPhase
exceeds 3, suggested cap floor(average * 0.8), fixed confidence 0.8. -/
def loadLimitRecommendations (workers : List Row) : List RuleRecommendation :=
  (groupLoads workers).filterMap (fun gl =>
    match gl.2.1 with
    | none => none
    | some tot =>
        let avgLoad : ℚ := (tot : ℚ) / (gl.2.2 : ℚ)
        if 3 < avgLoad then
          some { id := "loadLimit-" ++ gl.1,
                 rtype := "loadLimit",
                 description := gl.1 ++ (" workers have high average load (" ++
                   (toFixed1 avgLoad ++ ")")),
                 confidence := 4 / 5,
                 reasoning := "Average MaxLoadPerPhase for " ++ (gl.1 ++ (" is " ++
                   (toFixed1 avgLoad ++ ", suggesting potential overload"))),
                 params := .loadLimit gl.1 ⌊avgLoad * (4 / 5)⌋ }
        else none)

/-- AIService.generateRuleRecommendations: the coRun pattern analysis
over clients followed by the load analysis over workers. -/
def generateRuleRecommendations (datasets : Datasets) : List RuleRecommendation :=
  coRunRecommendations datasets.clients ++ loadLimitRecommendations datasets.workers

-- ===========================================================================
-- Concrete fixtures used by the claim witnesses and counterexamples
-- ===========================================================================

/-- A valid workers row lacking only the QualificationLevel column. -/
def c1row : Row :=
  [("WorkerID", Value.str "W1"), ("WorkerName", Value.str "Alice"),
   ("Skills", Value.str "python"), ("AvailableSlots", Value.str "[1,2]"),
   ("MaxLoadPerPhase", Value.num 2), ("WorkerGroup", Value.str "G1")]

/-- A second such row with a distinct WorkerID. -/
def c1rowB : Row :=
  [("WorkerID", Value.str "W2"), ("WorkerName", Value.str "Bob"),
   ("Skills", Value.str "go"), ("AvailableSlots", Value.str "[2]"),
   ("MaxLoadPerPhase", Value.num 1), ("WorkerGroup", Value.str "G2")]

def c1wdata : List Row := [c1row, c1rowB]

def c3row1 : Row := [("PriorityLevel", Value.num 3), ("GroupTag", Value.str "GroupB")]

def c3row2 : Row := [("PriorityLevel", Value.num 3), ("GroupTag", Value.str "GroupA")]

def c3row3 : Row := [("PriorityLevel", Value.num 1), ("GroupTag", Value.str "GroupA")]

def c3rows : List Row := [c3row1, c3row2, c3row3]

def c4rows : List Row := [[("ClientID", Value.str "A")], [("ClientID", Value.str "B")]]

/-- Two rows carrying the same nonempty ClientID. -/
def c5data : List Row := [[("ClientID", Value.str "A")], [("ClientID", Value.str "A")]]

/-- Three clients rows with priorities 0, 6 and 3. -/
def c6data : List Row :=
  [[("PriorityLevel", Value.num 0)], [("PriorityLevel", Value.num 6)],
   [("PriorityLevel", Value.num 3)]]

/-- The co-occurrence example of the spec: T1,T2 twice and T1,T3 once. -/
def c7exClients : List Row :=
  [[("RequestedTaskIDs", Value.str "T1,T2")],
   [("RequestedTaskIDs", Value.str "T1,T2")],
   [("RequestedTaskIDs", Value.str "T1,T3")]]

/-- The same two task identifiers in opposite orders on two rows. -/
def c7cexClients : List Row :=
  [[("RequestedTaskIDs", Value.str "T1,T2")],
   [("RequestedTaskIDs", Value.str "T2,T1")]]

/-- A conditional set command on workers. -/
def c8cmd : ModificationCommand :=
  { action := "set", field := "MaxLoadPerPhase", value := .num 2,
    condition := some { field := "WorkerGroup", operator := .equals, value := .str "groupb" },
    dataset := .workers }

def c8row1 : Row :=
  [("WorkerID", Value.str "W1"), ("WorkerGroup", Value.str "groupb"),
   ("MaxLoadPerPhase", Value.num 9)]

def c8row2 : Row :=
  [("WorkerID", Value.str "W2"), ("WorkerGroup", Value.str "other"),
   ("MaxLoadPerPhase", Value.num 7)]

def c8data : List Row := [c8row1, c8row2]

/-- A clients row with an unparseable AttributesJSON cell and a later
valid row. -/
def c9data : List Row :=
  [[("AttributesJSON", Value.str "not json")], [("ClientID", Value.str "C2")]]

/-- Rows whose identity key is the empty string or coerces to it. -/
def c10data : List Row := [[("ClientID", Value.str "")], [("ClientID", Value.num 0)]]

-- ===========================================================================
-- Shared lemmas: list concatenation
-- ===========================================================================

theorem flattenL_append {α : Type} (l m : List (List α)) :
    flattenL (l ++ m) = flattenL l ++ flattenL m := by
  induction l with
  | nil => rfl
  | cons x xs ih => simp [flattenL, ih]

theorem flattenL_map_singleton {α β : Type} (f : α → β) (l : List α) :
    flattenL (l.map (fun x => [f x])) = l.map f := by
  induction l with
  | nil => rfl
  | cons x xs ih => simp [flattenL, ih]

-- ===========================================================================
-- Shared lemmas: strings and message disjointness
-- ===========================================================================

theorem strDataAppend (s t : String) : (s ++ t).data = s.data ++ t.data := by
  cases s
  cases t
  rfl

theorem strExt {s t : String} (h : s.data = t.data) : s = t := by
  cases s
  cases t
  exact congrArg String.mk h

theorem strAppendCancelLeft {s t u : String} (h : s ++ t = s ++ u) : t = u := by
  apply strExt
  have h2 := congrArg String.data h
  rw [strDataAppend, strDataAppend] at h2
  exact List.append_cancel_left h2

/-- Two appended strings differ when their first components differ
within the first three characters. -/
theorem neOfTake3 {p q : String} (s t : String) (hp : 3 ≤ p.data.length)
    (hq : 3 ≤ q.data.length) (h : p.data.take 3 ≠ q.data.take 3) : p ++ s ≠ q ++ t := by
  intro he
  apply h
  have h2 := congrArg String.data he
  rw [strDataAppend, strDataAppend] at h2
  have h3 := congrArg (fun l => List.take 3 l) h2
  simpa [List.take_append_of_le_length hp, List.take_append_of_le_length hq] using h3

theorem rowMsgInjTail {n : Nat} {s t : String} (h : rowMsg n s = rowMsg n t) : s = t := by
  unfold rowMsg at h
  exact strAppendCancelLeft h

/-- Per-row messages of the same row with distinct leading tail text
are distinct. -/
theorem rowMsgNe {n : Nat} {p q : String} (s t : String) (hp : 3 ≤ p.data.length)
    (hq : 3 ≤ q.data.length) (h : p.data.take 3 ≠ q.data.take 3) :
    rowMsg n (p ++ s) ≠ rowMsg n (q ++ t) :=
  fun he => neOfTake3 s t hp hq h (rowMsgInjTail he)

/-- The duplicate-key message is never produced by the other clients
checks of the same row. -/
theorem dupNotMemClientChecks (n : Nat) (k : String) (row : Row) :
    rowMsg n (dupTail "ClientID" k) ∉ clientChecks n row := by
  intro hmem
  unfold clientChecks at hmem
  rw [List.mem_append, List.mem_append] at hmem
  rcases hmem with h | h | h
  · unfold clientPriorityCheck at h
    split at h
    · rw [List.mem_singleton] at h
      exact rowMsgNe _ _ (by decide) (by decide) (by decide) h
    · simp at h
  · unfold clientTaskIdsCheck at h
    split at h
    · rw [List.mem_singleton] at h
      exact rowMsgNe _ _ (by decide) (by decide) (by decide) h
    · simp at h
  · unfold clientJsonCheck at h
    split at h
    · rw [List.mem_singleton] at h
      exact rowMsgNe _ _ (by decide) (by decide) (by decide) h
    · simp at h

/-- The duplicate-key message is never produced by the other workers
checks of the same row. -/
theorem dupNotMemWorkerChecks (n : Nat) (k : String) (row : Row) :
    rowMsg n (dupTail "WorkerID" k) ∉ workerChecks n row := by
  intro hmem
  unfold workerChecks at hmem
  rw [List.mem_append, List.mem_append] at hmem
  rcases hmem with h | h | h
  · unfold workerSlotsCheck at h
    dsimp only at h
    split at h
    · simp at h
    · split at h
      · split at h
        · simp at h
        · rw [List.mem_singleton] at h
          exact rowMsgNe _ _ (by decide) (by decide) (by decide) h
      · rw [List.mem_singleton] at h
        exact rowMsgNe _ _ (by decide) (by decide) (by decide) h
  · unfold workerMaxLoadCheck at h
    split at h
    · rw [List.mem_singleton] at h
      exact rowMsgNe _ _ (by decide) (by decide) (by decide) h
    · simp at h
  · unfold workerQualCheck at h
    split at h
    · rw [List.mem_singleton] at h
      exact rowMsgNe _ _ (by decide) (by decide) (by decide) h
    · simp at h

/-- The duplicate-key message is never produced by the other tasks
checks of the same row. -/
theorem dupNotMemTaskChecks (n : Nat) (k : String) (row : Row) :
    rowMsg n (dupTail "TaskID" k) ∉ taskChecks n row := by
  intro hmem
  unfold taskChecks at hmem
  rw [List.mem_append, List.mem_append] at hmem
  rcases hmem with h | h | h
  · unfold taskDurationCheck at h
    split at h
    · rw [List.mem_singleton] at h
      exact rowMsgNe _ _ (by decide) (by decide) (by decide) h
    · simp at h
  · unfold taskPhasesCheck at h
    dsimp only at h
    split at h
    · simp at h
    · split at h
      · split at h
        · simp at h
        · rw [List.mem_singleton] at h
          exact rowMsgNe _ _ (by decide) (by decide) (by decide) h
      · split at h
        · simp at h
        · rw [List.mem_singleton] at h
          exact rowMsgNe _ _ (by decide) (by decide) (by decide) h
  · unfold taskMaxConcCheck at h
    split at h
    · rw [List.mem_singleton] at h
      exact rowMsgNe _ _ (by decide) (by decide) (by decide) h
    · simp at h

/-- The duplicate-key message of a row is never produced by the same
row's other checks, for any dataset kind. -/
theorem dupNotMemChecks (t : DatasetType) (n : Nat) (k : String) (row : Row) :
    dupIssue (dsCfg t) n k ∉ (dsCfg t).checks n row := by
  cases t
  · exact dupNotMemClientChecks n k row
  · exact dupNotMemWorkerChecks n k row
  · exact dupNotMemTaskChecks n k row

-- ===========================================================================
-- Shared lemmas: validator decomposition into per-row blocks
-- ===========================================================================

theorem scanRows_eq_flatten (cfg : ScanCfg) (seen : List String) (n : Nat) (rows : List Row) :
    scanRows cfg seen n rows = flattenL (rowBlocksAux cfg seen n rows) := by
  induction rows generalizing seen n with
  | nil => rfl
  | cons row rest ih => simp [scanRows, rowBlocksAux, flattenL, ih]

theorem rowBlocksAux_length (cfg : ScanCfg) (seen : List String) (n : Nat) (rows : List Row) :
    (rowBlocksAux cfg seen n rows).length = rows.length := by
  induction rows generalizing seen n with
  | nil => rfl
  | cons row rest ih => simp [rowBlocksAux, ih]

theorem rowBlocksAux_getD (cfg : ScanCfg) (rows : List Row) (seen : List String) (n i : Nat)
    (hi : i < rows.length) :
    (rowBlocksAux cfg seen n rows).getD i []
      = rowIssues cfg (((rows.take i).map (rowKey cfg)).foldl nextSeen seen) (n + i)
          (rows.get ⟨i, hi⟩) := by
  induction rows generalizing seen n i with
  | nil => simp at hi
  | cons row rest ih =>
      cases i with
      | zero => simp [rowBlocksAux]
      | succ j =>
          have hj : j < rest.length := by simpa using hi
          have h2 := ih (nextSeen seen (rowKey cfg row)) (n + 1) j hj
          simp only [rowBlocksAux, List.getD_cons_succ, h2, List.take_succ_cons, List.map_cons,
            List.foldl_cons, List.get_cons_succ]
          congr 1
          omega

theorem memFlattenL {α : Type} {L : List (List α)} {l : List α} {x : α}
    (hl : l ∈ L) (hx : x ∈ l) : x ∈ flattenL L := by
  induction L with
  | nil => simp at hl
  | cons a as ih =>
      rw [List.mem_cons] at hl
      unfold flattenL
      rcases hl with h | h
      · exact List.mem_append_left _ (h ▸ hx)
      · exact List.mem_append_right _ (ih h)

theorem validateDataset_decomp (t : DatasetType) (data : List Row) :
    validateDataset t data
      = missingColumnsCheck (dsRequired t) data ++ flattenL (dsBlocks t data) := by
  cases t <;>
    simp [validateDataset, validateClientData, validateWorkerData, validateTaskData,
      dsRequired, dsBlocks, dsCfg, scanRows_eq_flatten]

theorem blockAt_eq (t : DatasetType) (data : List Row) (i : Nat) (hi : i < data.length) :
    blockAt t data i
      = rowIssues (dsCfg t) (seenOf (dsCfg t) data i) (i + 1) (data.get ⟨i, hi⟩) := by
  unfold blockAt dsBlocks seenOf
  rw [rowBlocksAux_getD (dsCfg t) data [] 1 i hi]
  congr 1
  omega

theorem blockAt_mem_validate (t : DatasetType) (data : List Row) (i : Nat)
    (hi : i < data.length) {x : String} (hx : x ∈ blockAt t data i) :
    x ∈ validateDataset t data := by
  rw [validateDataset_decomp]
  apply List.mem_append_right
  have hlen : i < (dsBlocks t data).length := by
    rw [dsBlocks, rowBlocksAux_length]
    exact hi
  have hmem : blockAt t data i ∈ dsBlocks t data := by
    unfold blockAt
    rw [List.getD_eq_getElem?_getD, List.getElem?_eq_getElem hlen]
    exact List.getElem_mem hlen
  exact memFlattenL hmem hx

-- ===========================================================================
-- Shared lemmas: the seen-set of the duplicate scan
-- ===========================================================================

theorem mem_nextSeen (x k : String) (seen : List String) :
    x ∈ nextSeen seen k ↔ x ∈ seen ∨ (x = k ∧ k ≠ "") := by
  unfold nextSeen
  split
  · rename_i hcond
    simp only [List.mem_append, List.mem_singleton]
    constructor
    · rintro (h | h)
      · exact Or.inl h
      · exact Or.inr ⟨h, hcond.1⟩
    · rintro (h | h)
      · exact Or.inl h
      · exact Or.inr h.1
  · rename_i hcond
    push_neg at hcond
    constructor
    · exact Or.inl
    · rintro (h | ⟨hx, hk⟩)
      · exact h
      · exact hx ▸ hcond hk

theorem mem_foldl_nextSeen (keys : List String) (seen : List String) (x : String) :
    x ∈ keys.foldl nextSeen seen ↔ x ∈ seen ∨ (x ≠ "" ∧ x ∈ keys) := by
  induction keys generalizing seen with
  | nil => simp
  | cons k ks ih =>
      rw [List.foldl_cons, ih, mem_nextSeen]
      simp only [List.mem_cons]
      constructor
      · rintro ((h | ⟨hx, hk⟩) | ⟨hne, hmem⟩)
        · exact Or.inl h
        · exact Or.inr ⟨hx ▸ hk, Or.inl hx⟩
        · exact Or.inr ⟨hne, Or.inr hmem⟩
      · rintro (h | ⟨hne, hx | hmem⟩)
        · exact Or.inl (Or.inl h)
        · exact Or.inl (Or.inr ⟨hx, hx ▸ hne⟩)
        · exact Or.inr ⟨hne, hmem⟩

theorem mem_seenOf (cfg : ScanCfg) (data : List Row) (i : Nat) (x : String) :
    x ∈ seenOf cfg data i ↔ x ≠ "" ∧ x ∈ (data.take i).map (rowKey cfg) := by
  unfold seenOf
  rw [mem_foldl_nextSeen]
  simp

-- ===========================================================================
-- Shared lemmas: occurrence counting
-- ===========================================================================

theorem countOcc_append (p : String) (l m : List String) :
    countOcc p (l ++ m) = countOcc p l + countOcc p m := by
  induction l with
  | nil => simp [countOcc]
  | cons x xs ih => simp [countOcc, ih]; omega

theorem countOcc_eq_zero {p : String} {l : List String} (h : p ∉ l) : countOcc p l = 0 := by
  induction l with
  | nil => rfl
  | cons x xs ih =>
      rw [List.mem_cons, not_or] at h
      simp [countOcc, Ne.symm h.1, ih h.2]

-- ===========================================================================
-- Shared lemmas: rows and checks
-- ===========================================================================

theorem lookupField_eq_none {row : Row} {f : String} (h : f ∉ row.map Prod.fst) :
    lookupField row f = none := by
  induction row with
  | nil => rfl
  | cons kv rest ih =>
      rw [List.map_cons, List.mem_cons, not_or] at h
      unfold lookupField
      rw [if_neg (fun he => h.1 he.symm)]
      exact ih h.2

theorem workerSlotsCheck_nil {row : Row} (h : workerSlotsOk row = true) (n : Nat) :
    workerSlotsCheck n row = [] := by
  unfold workerSlotsOk at h
  unfold workerSlotsCheck
  dsimp only at h ⊢
  split
  · rfl
  · rename_i hcond
    rcases hs : jsonParse (jsStringOrEmpty (lookupField row "AvailableSlots")) with _ | j
    · rw [hs] at h
      simp at h
      rcases h with h | h
      · exact absurd (by simp [h]) hcond
      · exact absurd (by simp [h]) hcond
    · rw [hs] at h
      simp at h
      rcases h with (h | h) | h
      · exact absurd (by simp [h]) hcond
      · exact absurd (by simp [h]) hcond
      · simp [h]

theorem setField_lookupField_ne (row : Row) (field : String) (v : Value) (f : String)
    (h : f ≠ field) : lookupField (setField row field v) f = lookupField row f := by
  induction row with
  | nil =>
      unfold setField lookupField
      rw [if_neg (fun he => h he.symm)]
      rfl
  | cons kv rest ih =>
      obtain ⟨k, w⟩ := kv
      unfold setField
      by_cases hk : k = field
      · rw [if_pos hk]
        unfold lookupField
        rw [if_neg (fun he => h he.symm), if_neg (fun (he : k = f) => h (he ▸ hk))]
      · rw [if_neg hk]
        unfold lookupField
        by_cases he : k = f
        · rw [if_pos he, if_pos he]
        · rw [if_neg he, if_neg he]
          exact ih

-- ===========================================================================
-- Claim theorems
-- ===========================================================================

/-- Claim C4: parseNaturalLanguageQuery applied to an empty or
whitespace-only query string returns the input row list itself
unchanged, in order (identity, not the empty result). -/
theorem query_blank_identity (query : String) (data : List Row)
    (hq : jsTrim query = "") : parseNaturalLanguageQuery query data = data := by
  unfold parseNaturalLanguageQuery
  rw [if_pos (Or.inl hq)]

/-- Witness for C4 at a whitespace-only query and a two-row list. -/
theorem query_blank_identity_witness :
    jsTrim "   " = "" ∧ parseNaturalLanguageQuery "   " c4rows = c4rows :=
  ⟨by decide, query_blank_identity "   " c4rows (by decide)⟩

/-- Claim C3: for every query string and row list, only the first
pattern in the fixed order (priority_greater, priority_less,
duration_greater, duration_less, group_equals, skills_contains) that
matches the lowercased query is applied; whichever pattern is the
earliest to match, the whole result is the input filtered solely by
that pattern's predicate, and later patterns are never applied even
when they also match. -/
theorem query_first_pattern_wins (query : String) (data : List Row)
    (hq : jsTrim query ≠ "") :
    (∀ v, searchPattern "priority" '>' Char.isDigit (toLowerStr query) = some v →
        parseNaturalLanguageQuery query data
          = data.filter (numGtFilter "PriorityLevel" (natOfDigits v)))
    ∧ (searchPattern "priority" '>' Char.isDigit (toLowerStr query) = none →
        ∀ v, searchPattern "priority" '<' Char.isDigit (toLowerStr query) = some v →
          parseNaturalLanguageQuery query data
            = data.filter (numLtFilter "PriorityLevel" (natOfDigits v)))
    ∧ (searchPattern "priority" '>' Char.isDigit (toLowerStr query) = none →
        searchPattern "priority" '<' Char.isDigit (toLowerStr query) = none →
        ∀ v, searchPattern "duration" '>' Char.isDigit (toLowerStr query) = some v →
          parseNaturalLanguageQuery query data
            = data.filter (numGtFilter "Duration" (natOfDigits v)))
    ∧ (searchPattern "priority" '>' Char.isDigit (toLowerStr query) = none →
        searchPattern "priority" '<' Char.isDigit (toLowerStr query) = none →
        searchPattern "duration" '>' Char.isDigit (toLowerStr query) = none →
        ∀ v, searchPattern "duration" '<' Char.isDigit (toLowerStr query) = some v →
          parseNaturalLanguageQuery query data
            = data.filter (numLtFilter "Duration" (natOfDigits v)))
    ∧ (searchPattern "priority" '>' Char.isDigit (toLowerStr query) = none →
        searchPattern "priority" '<' Char.isDigit (toLowerStr query) = none →
        searchPattern "duration" '>' Char.isDigit (toLowerStr query) = none →
        searchPattern "duration" '<' Char.isDigit (toLowerStr query) = none →
        ∀ g, searchPattern "group" '=' isWordChar (toLowerStr query) = some g →
          parseNaturalLanguageQuery query data = data.filter (groupFilter g))
    ∧ (searchPattern "priority" '>' Char.isDigit (toLowerStr query) = none →
        searchPattern "priority" '<' Char.isDigit (toLowerStr query) = none →
        searchPattern "duration" '>' Char.isDigit (toLowerStr query) = none →
        searchPattern "duration" '<' Char.isDigit (toLowerStr query) = none →
        searchPattern "group" '=' isWordChar (toLowerStr query) = none →
        ∀ g, searchPattern "skills" '=' (fun c => c ≠ ',') (toLowerStr query) = some g →
          parseNaturalLanguageQuery query data = data.filter (skillsFilter g)) := by
  by_cases hd : data = []
  · subst hd
    refine ⟨?_, ?_, ?_, ?_, ?_, ?_⟩ <;> intros <;> simp [parseNaturalLanguageQuery]
  · refine ⟨?_, ?_, ?_, ?_, ?_, ?_⟩
    · intro v hm
      unfold parseNaturalLanguageQuery
      rw [if_neg (by simp [hq, hd])]
      simp only [queryFilter, hm]
    · intro h1 v hm
      unfold parseNaturalLanguageQuery
      rw [if_neg (by simp [hq, hd])]
      simp only [queryFilter, h1, hm]
    · intro h1 h2 v hm
      unfold parseNaturalLanguageQuery
      rw [if_neg (by simp [hq, hd])]
      simp only [queryFilter, h1, h2, hm]
    · intro h1 h2 h3 v hm
      unfold parseNaturalLanguageQuery
      rw [if_neg (by simp [hq, hd])]
      simp only [queryFilter, h1, h2, h3, hm]
    · intro h1 h2 h3 h4 g hm
      unfold parseNaturalLanguageQuery
      rw [if_neg (by simp [hq, hd])]
      simp only [queryFilter, h1, h2, h3, h4, hm]
    · intro h1 h2 h3 h4 h5 g hm
      unfold parseNaturalLanguageQuery
      rw [if_neg (by simp [hq, hd])]
      simp only [queryFilter, h1, h2, h3, h4, h5, hm]

/-- Witness for C3 at both ends of the cascade: on the query
priority > 2 group = GroupA the group pattern also matches, yet the
first row is kept although its GroupTag is GroupB — only the priority
filter runs; and on the query group = GroupA, where the four numeric
patterns fail, the group filter alone runs. -/
theorem query_first_pattern_wins_witness :
    searchPattern "group" '=' isWordChar (toLowerStr "priority > 2 group = GroupA")
        = some "groupa"
    ∧ groupFilter "groupa" c3row1 = false
    ∧ parseNaturalLanguageQuery "priority > 2 group = GroupA" c3rows = [c3row1, c3row2]
    ∧ parseNaturalLanguageQuery "group = GroupA" c3rows = [c3row2, c3row3] := by
  refine ⟨by decide, by decide, ?_, ?_⟩
  · rw [(query_first_pattern_wins "priority > 2 group = GroupA" c3rows (by decide)).1 "2"
        (by decide)]
    decide
  · rw [(query_first_pattern_wins "group = GroupA" c3rows (by decide)).2.2.2.2.1 (by decide)
        (by decide) (by decide) (by decide) "groupa" (by decide)]
    decide

/-- Claim C2, counterexample: the command string types the group token
as GroupB, but the parsed condition value is the lowercased token
groupb, so the case the user typed is not preserved. -/
theorem cmd2_case_counterexample :
    parseModificationCommand "Set MaxLoadPerPhase to 2 for GroupB workers"
      = some { action := "set", field := "MaxLoadPerPhase", value := .num 2,
               condition := some { field := "WorkerGroup", operator := .equals,
                                   value := .str "groupb" },
               dataset := .workers }
    ∧ ("groupb" : String) ≠ "GroupB" :=
  ⟨by rfl, by decide⟩

/-- Claim C2 as amended: whenever the second template is the first to
match, the result is a conditional set on workers whose condition is
WorkerGroup equals the group token as extracted from the lowercased
command string (all-lowercase), not necessarily as typed. -/
theorem cmd2_condition_lowercased (command : String) (v : Nat) (g : String)
    (h1 : regexSearch matchCmd1At (toLowerStr command).data = none)
    (h2 : regexSearch matchCmd2At (toLowerStr command).data = some (v, g)) :
    parseModificationCommand command
      = some { action := "set", field := "MaxLoadPerPhase", value := .num (Int.ofNat v),
               condition := some { field := "WorkerGroup", operator := .equals,
                                   value := .str g },
               dataset := .workers } := by
  unfold parseModificationCommand
  simp only [h1, h2]

/-- Witness for the amended C2 at the spec's all-lowercase example
command. -/
theorem cmd2_condition_lowercased_witness :
    parseModificationCommand "set maxloadperphase to 2 for groupb workers"
      = some { action := "set", field := "MaxLoadPerPhase", value := .num 2,
               condition := some { field := "WorkerGroup", operator := .equals,
                                   value := .str "groupb" },
               dataset := .workers } :=
  cmd2_condition_lowercased "set maxloadperphase to 2 for groupb workers" 2 "groupb"
    (by rfl) (by rfl)

/-- Claim C5: for every dataset kind and every row carrying a nonempty
identity key, the validator output is the aggregate issues followed by
the per-row issue blocks in row order; the block of a row whose key
has no earlier occurrence contains no duplicate-key issue, and the
block of every subsequent row carrying the same key contains exactly
one. -/
theorem validator_duplicate_key_policy (t : DatasetType) (data : List Row) (i : Nat)
    (hi : i < data.length) (k : String) (hk : k = dsKey t (data.get ⟨i, hi⟩))
    (hne : k ≠ "") :
    (validateDataset t data
        = missingColumnsCheck (dsRequired t) data ++ flattenL (dsBlocks t data))
    ∧ (k ∉ (data.take i).map (dsKey t) →
        countOcc (dupIssue (dsCfg t) (i + 1) k) (blockAt t data i) = 0)
    ∧ (k ∈ (data.take i).map (dsKey t) →
        countOcc (dupIssue (dsCfg t) (i + 1) k) (blockAt t data i) = 1) := by
  have hkey : rowKey (dsCfg t) (data.get ⟨i, hi⟩) = k := hk.symm
  refine ⟨validateDataset_decomp t data, ?_, ?_⟩
  · intro hnot
    rw [blockAt_eq t data i hi]
    unfold rowIssues
    rw [countOcc_append, hkey]
    rw [if_neg]
    · rw [countOcc_eq_zero (dupNotMemChecks t (i + 1) k (data.get ⟨i, hi⟩))]
      rfl
    · rintro ⟨_, h2⟩
      rw [mem_seenOf] at h2
      exact hnot h2.2
  · intro hin
    rw [blockAt_eq t data i hi]
    unfold rowIssues
    rw [countOcc_append, hkey]
    rw [if_pos ⟨hne, (mem_seenOf _ _ _ _).mpr ⟨hne, hin⟩⟩]
    rw [countOcc_eq_zero (dupNotMemChecks t (i + 1) k (data.get ⟨i, hi⟩))]
    simp [countOcc]

/-- Witness for C5 at two clients rows with the same ClientID: the
second row's block holds exactly one duplicate issue, the first
row's block holds none. -/
theorem validator_duplicate_key_policy_witness :
    countOcc (dupIssue (dsCfg DatasetType.clients) 2 "A") (blockAt DatasetType.clients c5data 1)
        = 1
    ∧ countOcc (dupIssue (dsCfg DatasetType.clients) 1 "A")
        (blockAt DatasetType.clients c5data 0) = 0 :=
  ⟨(validator_duplicate_key_policy DatasetType.clients c5data 1 (by decide) "A" (by decide)
      (by decide)).2.2 (by decide),
   (validator_duplicate_key_policy DatasetType.clients c5data 0 (by decide) "A" (by decide)
      (by decide)).2.1 (by decide)⟩

/-- Claim C10: a row whose identity key is missing or coerces to the
empty string contributes exactly its non-duplicate checks — its block
never contains a duplicate-key issue, for any dataset kind. -/
theorem validator_empty_key_no_duplicate (t : DatasetType) (data : List Row) (i : Nat)
    (hi : i < data.length) (hk : dsKey t (data.get ⟨i, hi⟩) = "") :
    (validateDataset t data
        = missingColumnsCheck (dsRequired t) data ++ flattenL (dsBlocks t data))
    ∧ blockAt t data i = (dsCfg t).checks (i + 1) (data.get ⟨i, hi⟩)
    ∧ ∀ k : String, dupIssue (dsCfg t) (i + 1) k ∉ blockAt t data i := by
  have hblock : blockAt t data i = (dsCfg t).checks (i + 1) (data.get ⟨i, hi⟩) := by
    rw [blockAt_eq t data i hi]
    unfold rowIssues
    rw [if_neg, List.nil_append]
    rintro ⟨h1, _⟩
    exact h1 hk
  refine ⟨validateDataset_decomp t data, hblock, ?_⟩
  intro k hmem
  rw [hblock] at hmem
  exact dupNotMemChecks t (i + 1) k _ hmem

/-- Witness for C10 at two rows whose ClientID coerces to the empty
string (an empty string and the number 0): the second such row is
still not flagged as a duplicate. -/
theorem validator_empty_key_no_duplicate_witness :
    blockAt DatasetType.clients c10data 1
        = (dsCfg DatasetType.clients).checks 2 (c10data.get ⟨1, by decide⟩)
    ∧ dupIssue (dsCfg DatasetType.clients) 2 "" ∉ blockAt DatasetType.clients c10data 1 :=
  ⟨(validator_empty_key_no_duplicate DatasetType.clients c10data 1 (by decide) (by decide)).2.1,
   (validator_empty_key_no_duplicate DatasetType.clients c10data 1 (by decide)
      (by decide)).2.2 ""⟩

/-- Claim C6: a clients row whose coerced PriorityLevel is 0 or 6 is
flagged with the range issue in the validator output, and a row whose
coerced PriorityLevel is an integer in the closed interval one to five
is never flagged by the range check. -/
theorem clients_priority_range_check (data : List Row) (i : Nat) (hi : i < data.length)
    (p : Int) (hp : jsToNumber (lookupField (data.get ⟨i, hi⟩) "PriorityLevel") = some p) :
    ((p = 0 ∨ p = 6) →
        rowMsg (i + 1)
            (clientPriorityTail (jsStringRaw (lookupField (data.get ⟨i, hi⟩) "PriorityLevel")))
          ∈ validateClientData data)
    ∧ (1 ≤ p → p ≤ 5 → clientPriorityCheck (i + 1) (data.get ⟨i, hi⟩) = []) := by
  constructor
  · intro hp06
    have hbad : clientPriorityBad (data.get ⟨i, hi⟩) = true := by
      unfold clientPriorityBad
      rw [hp]
      rcases hp06 with h | h <;> simp [h]
    have hmem :
        rowMsg (i + 1)
            (clientPriorityTail (jsStringRaw (lookupField (data.get ⟨i, hi⟩) "PriorityLevel")))
          ∈ blockAt DatasetType.clients data i := by
      rw [blockAt_eq DatasetType.clients data i hi]
      unfold rowIssues
      apply List.mem_append_right
      show _ ∈ clientChecks (i + 1) (data.get ⟨i, hi⟩)
      unfold clientChecks
      apply List.mem_append_left
      unfold clientPriorityCheck
      rw [if_pos hbad]
      exact List.mem_singleton.mpr rfl
    exact blockAt_mem_validate DatasetType.clients data i hi hmem
  · intro h1 h5
    have hgood : clientPriorityBad (data.get ⟨i, hi⟩) = false := by
      unfold clientPriorityBad
      rw [hp]
      have e1 : ¬(p < 1) := by omega
      have e2 : ¬(p > 5) := by omega
      simp [e1, e2]
    unfold clientPriorityCheck
    rw [if_neg (by rw [hgood]; simp)]

/-- Witness for C6 at priorities 0, 6 and 3. -/
theorem clients_priority_range_check_witness :
    rowMsg 1 (clientPriorityTail "0") ∈ validateClientData c6data
    ∧ rowMsg 2 (clientPriorityTail "6") ∈ validateClientData c6data
    ∧ clientPriorityCheck 3 (c6data.get ⟨2, by decide⟩) = [] :=
  ⟨(clients_priority_range_check c6data 0 (by decide) 0 (by decide)).1 (Or.inl rfl),
   (clients_priority_range_check c6data 1 (by decide) 6 (by decide)).1 (Or.inr rfl),
   (clients_priority_range_check c6data 2 (by decide) 3 (by decide)).2 (by decide) (by decide)⟩

/-- Claim C9: every validator run is a total function whose output is
the aggregate issues followed by one issue block per input row — the
scan reaches every row — and a clients row whose AttributesJSON cell
is nonempty, not the sentinel, and unparseable contributes its
invalid-JSON issue to the output while the other rows' blocks remain
present. -/
theorem validateDataset_total_scan (t : DatasetType) (data : List Row) :
    (validateDataset t data
        = missingColumnsCheck (dsRequired t) data ++ flattenL (dsBlocks t data))
    ∧ (dsBlocks t data).length = data.length
    ∧ ∀ i, (hi : i < data.length) → ∀ a : String,
        a = jsStringOrEmpty (lookupField (data.get ⟨i, hi⟩) "AttributesJSON") →
        a ≠ "" → a ≠ "INVALID_JSON" → jsonParse a = none →
        rowMsg (i + 1) (clientJsonTail a) ∈ validateDataset DatasetType.clients data := by
  refine ⟨validateDataset_decomp t data, ?_, ?_⟩
  · unfold dsBlocks
    exact rowBlocksAux_length _ _ _ _
  · intro i hi a ha hne hsent hparse
    have hbad : clientJsonBad (data.get ⟨i, hi⟩) = true := by
      unfold clientJsonBad
      dsimp only
      rw [← ha]
      simp [hne, hsent, hparse]
    apply blockAt_mem_validate DatasetType.clients data i hi
    rw [blockAt_eq DatasetType.clients data i hi]
    unfold rowIssues
    apply List.mem_append_right
    show _ ∈ clientChecks (i + 1) (data.get ⟨i, hi⟩)
    unfold clientChecks
    apply List.mem_append_right
    apply List.mem_append_right
    unfold clientJsonCheck
    rw [if_pos hbad, ha]
    exact List.mem_singleton.mpr rfl

/-- Witness for C9 at a clients dataset whose first row holds an
unparseable AttributesJSON cell. -/
theorem validateDataset_total_scan_witness :
    rowMsg 1 (clientJsonTail "not json") ∈ validateDataset DatasetType.clients c9data :=
  (validateDataset_total_scan DatasetType.clients c9data).2.2 0 (by decide) "not json"
    (by rfl) (by decide) (by decide) (by rfl)

/-- Claim C8: the preview keeps the number and order of rows; each
preview row agrees with its original on every column other than the
command's single target field; and a row that fails the command's
condition is returned identical to its original. -/
theorem preview_frame_effect (cmd : ModificationCommand) (data : List Row) :
    (previewRows cmd data).length = data.length
    ∧ ∀ i, (hi : i < data.length) → (hp : i < (previewRows cmd data).length) →
        (∀ f : String, f ≠ cmd.field →
            lookupField ((previewRows cmd data).get ⟨i, hp⟩) f
              = lookupField (data.get ⟨i, hi⟩) f)
        ∧ (∀ c, cmd.condition = some c → evalCondition c (data.get ⟨i, hi⟩) = false →
            (previewRows cmd data).get ⟨i, hp⟩ = data.get ⟨i, hi⟩) := by
  constructor
  · unfold previewRows
    simp
  · intro i hi hp
    have hget : (previewRows cmd data).get ⟨i, hp⟩ = previewRow cmd (data.get ⟨i, hi⟩) := by
      unfold previewRows
      simp
    constructor
    · intro f hf
      rw [hget]
      unfold previewRow
      dsimp only
      split
      · exact setField_lookupField_ne _ _ _ _ hf
      · rfl
    · intro c hc hfalse
      rw [hget]
      unfold previewRow
      simp only [hc]
      rw [hfalse]
      simp

/-- Witness for C8 at a conditional workers command on two rows: a
non-target field of the updated row is untouched, and the row whose
WorkerGroup fails the condition is returned identical. -/
theorem preview_frame_effect_witness :
    lookupField ((previewRows c8cmd c8data).get ⟨0, by decide⟩) "WorkerID"
        = lookupField (c8data.get ⟨0, by decide⟩) "WorkerID"
    ∧ (previewRows c8cmd c8data).get ⟨1, by decide⟩ = c8data.get ⟨1, by decide⟩ :=
  ⟨((preview_frame_effect c8cmd c8data).2 0 (by decide) (by decide)).1 "WorkerID" (by decide),
   ((preview_frame_effect c8cmd c8data).2 1 (by decide) (by decide)).2
     { field := "WorkerGroup", operator := .equals, value := .str "groupb" } rfl (by decide)⟩

/-- Claim C1, counterexample: a one-row workers dataset lacking only
the QualificationLevel column (every present field valid) yields two
issues, not one — the aggregate missing-columns issue plus a per-row
QualificationLevel range issue, because Number(undefined) is NaN. -/
theorem workers_missing_qual_counterexample :
    validateWorkerData [c1row]
      = ["Missing required columns: QualificationLevel",
         rowMsg 1 (workerQualTail "undefined")]
    ∧ (validateWorkerData [c1row]).length ≠ 1
    ∧ rowMsg 1 (workerQualTail "undefined") ∈ validateWorkerData [c1row] := by
  have h : validateWorkerData [c1row]
      = ["Missing required columns: QualificationLevel",
         rowMsg 1 (workerQualTail "undefined")] := by rfl
  refine ⟨h, ?_, ?_⟩
  · rw [h]
    decide
  · rw [h]
    exact List.mem_cons_of_mem _ (List.mem_singleton.mpr rfl)

/-- Claim C1 as amended: on a nonempty workers dataset whose rows lack
the QualificationLevel column while every other required column is
present and every present field is valid, the validator returns the
aggregate missing-required-columns issue naming QualificationLevel
followed by exactly one QualificationLevel range issue per row (the
absent cell coerces to NaN), and nothing else. -/
theorem workers_missing_qualification_amended (data : List Row)
    (hne : data ≠ [])
    (hq : ∀ row ∈ data, "QualificationLevel" ∉ row.map Prod.fst)
    (hcols : ∀ c ∈ ["WorkerID", "WorkerName", "Skills", "AvailableSlots", "MaxLoadPerPhase",
        "WorkerGroup"], rowHasKey (data.headD []) c = true)
    (hdup : ∀ i, (hi : i < data.length) →
        rowKey workerCfg (data.get ⟨i, hi⟩) ∉ (data.take i).map (rowKey workerCfg))
    (hslots : ∀ row ∈ data, workerSlotsOk row = true)
    (hload : ∀ row ∈ data, workerMaxLoadBad row = false) :
    validateWorkerData data
      = "Missing required columns: QualificationLevel"
          :: (List.range data.length).map (fun i => rowMsg (i + 1) (workerQualTail "undefined")) := by
  obtain ⟨r, rest, rfl⟩ : ∃ r rest, data = r :: rest := by
    cases data with
    | nil => exact absurd rfl hne
    | cons a l => exact ⟨a, l, rfl⟩
  have h1 : rowHasKey r "WorkerID" = true := hcols _ (by simp)
  have h2 : rowHasKey r "WorkerName" = true := hcols _ (by simp)
  have h3 : rowHasKey r "Skills" = true := hcols _ (by simp)
  have h4 : rowHasKey r "AvailableSlots" = true := hcols _ (by simp)
  have h5 : rowHasKey r "MaxLoadPerPhase" = true := hcols _ (by simp)
  have h6 : rowHasKey r "WorkerGroup" = true := hcols _ (by simp)
  have h7 : rowHasKey r "QualificationLevel" = false := by
    unfold rowHasKey
    exact decide_eq_false (hq r (by simp))
  have hfil : workerRequiredColumns.filter (fun c => !(rowHasKey r c)) = ["QualificationLevel"] := by
    simp [workerRequiredColumns, List.filter_cons, h1, h2, h3, h4, h5, h6, h7]
  have hmiss : missingColumnsCheck workerRequiredColumns (r :: rest)
      = ["Missing required columns: QualificationLevel"] := by
    unfold missingColumnsCheck
    dsimp only
    rw [hfil]
    decide
  have hscan : rowBlocksAux workerCfg [] 1 (r :: rest)
      = (List.range (r :: rest).length).map
          (fun i => [rowMsg (i + 1) (workerQualTail "undefined")]) := by
    apply List.ext_getElem
    · rw [rowBlocksAux_length]
      simp
    · intro i hi1 hi2
      have hlen : i < (r :: rest).length := by rwa [rowBlocksAux_length] at hi1
      have hgd := rowBlocksAux_getD workerCfg (r :: rest) [] 1 i hlen
      rw [List.getD_eq_getElem?_getD, List.getElem?_eq_getElem hi1, Option.getD_some] at hgd
      rw [hgd, List.getElem_map, List.getElem_range]
      have hrowmem : (r :: rest).get ⟨i, hlen⟩ ∈ r :: rest := List.get_mem _ _ hlen
      unfold rowIssues
      rw [if_neg]
      · rw [List.nil_append]
        show workerChecks (1 + i) ((r :: rest).get ⟨i, hlen⟩) = _
        unfold workerChecks
        rw [workerSlotsCheck_nil (hslots _ hrowmem), List.nil_append]
        unfold workerMaxLoadCheck
        rw [if_neg (by rw [hload _ hrowmem]; simp), List.nil_append]
        have hlook : lookupField ((r :: rest).get ⟨i, hlen⟩) "QualificationLevel" = none :=
          lookupField_eq_none (hq _ hrowmem)
        have hbad : workerQualBad ((r :: rest).get ⟨i, hlen⟩) = true := by
          unfold workerQualBad
          rw [hlook]
          rfl
        unfold workerQualCheck
        rw [if_pos hbad, hlook, Nat.add_comm 1 i]
        rfl
      · rintro ⟨_, hmem⟩
        rw [show (((r :: rest).take i).map (rowKey workerCfg)).foldl nextSeen []
              = seenOf workerCfg (r :: rest) i from rfl, mem_seenOf] at hmem
        exact hdup i hlen hmem.2
  unfold validateWorkerData
  rw [hmiss, scanRows_eq_flatten, hscan, flattenL_map_singleton]
  rfl

/-- Witness for the amended C1 at a two-row workers dataset lacking
QualificationLevel. -/
theorem workers_missing_qualification_amended_witness :
    validateWorkerData c1wdata
      = ["Missing required columns: QualificationLevel",
         rowMsg 1 (workerQualTail "undefined"), rowMsg 2 (workerQualTail "undefined")] := by
  rw [workers_missing_qualification_amended c1wdata (by decide) (by decide) (by decide)
      (by decide) (by decide) (by decide)]
  rfl

theorem tallyCount_bumpPair (m : List (String × Nat)) (x p : String) :
    tallyCount p (bumpPair m x) = tallyCount p m + (if x = p then 1 else 0) := by
  induction m with
  | nil => by_cases h : x = p <;> simp [bumpPair, tallyCount, h]
  | cons qc rest ih =>
      obtain ⟨q, c⟩ := qc
      unfold bumpPair
      by_cases hqx : q = x
      · rw [if_pos hqx]
        unfold tallyCount
        by_cases hqp : q = p
        · rw [if_pos hqp, if_pos hqp, if_pos (hqx ▸ hqp)]
        · rw [if_neg hqp, if_neg hqp, if_neg (fun h => hqp (hqx.trans h))]
          omega
      · rw [if_neg hqx]
        unfold tallyCount
        by_cases hqp : q = p
        · rw [if_pos hqp, if_pos hqp, if_neg (fun h => hqx (hqp.trans h.symm))]
          omega
        · rw [if_neg hqp, if_neg hqp]
          exact ih

theorem tallyCount_foldl (pairs : List String) (m : List (String × Nat)) (p : String) :
    tallyCount p (pairs.foldl bumpPair m) = tallyCount p m + countOcc p pairs := by
  induction pairs generalizing m with
  | nil => simp [countOcc]
  | cons x xs ih =>
      rw [List.foldl_cons, ih, tallyCount_bumpPair]
      show tallyCount p m + (if x = p then 1 else 0) + countOcc p xs
        = tallyCount p m + ((if x = p then 1 else 0) + countOcc p xs)
      rw [Nat.add_assoc]

theorem coRun_rtype_eq {clients : List Row} {rec : RuleRecommendation}
    (h : rec ∈ coRunRecommendations clients) : rec.rtype = "coRun" := by
  unfold coRunRecommendations at h
  rw [List.mem_filterMap] at h
  obtain ⟨pc, _, hpc⟩ := h
  split at hpc
  · obtain rfl := Option.some_inj.mp hpc
    rfl
  · exact absurd hpc (by simp)

theorem load_rtype_eq {workers : List Row} {rec : RuleRecommendation}
    (h : rec ∈ loadLimitRecommendations workers) : rec.rtype = "loadLimit" := by
  unfold loadLimitRecommendations at h
  rw [List.mem_filterMap] at h
  obtain ⟨gl, _, hgl⟩ := h
  split at hgl
  · exact absurd hgl (by simp)
  · dsimp only at hgl
    split at hgl
    · obtain rfl := Option.some_inj.mp hgl
      rfl
    · exact absurd hgl (by simp)

theorem corun_filter (ds : Datasets) :
    (generateRuleRecommendations ds).filter (fun r => decide (r.rtype = "coRun"))
      = coRunRecommendations ds.clients := by
  unfold generateRuleRecommendations
  rw [List.filter_append]
  have hA : (coRunRecommendations ds.clients).filter (fun r => decide (r.rtype = "coRun"))
      = coRunRecommendations ds.clients :=
    List.filter_eq_self.mpr (fun r hr => by simp [coRun_rtype_eq hr])
  have hB : (loadLimitRecommendations ds.workers).filter (fun r => decide (r.rtype = "coRun"))
      = [] := by
    rw [List.filter_eq_nil_iff]
    intro r hr
    simp [load_rtype_eq hr]
  rw [hA, hB, List.append_nil]

theorem insStable_perm (acc : List (String × Nat)) (x : String × Nat) :
    (insStable acc x).Perm (x :: acc) := by
  induction acc with
  | nil => exact List.Perm.refl _
  | cons y rest ih =>
      unfold insStable
      split
      · exact List.Perm.refl _
      · exact (List.Perm.cons y ih).trans (List.Perm.swap x y rest)

theorem sortByCountDesc_perm (l : List (String × Nat)) : (sortByCountDesc l).Perm l := by
  have key : ∀ (l acc : List (String × Nat)), (l.foldl insStable acc).Perm (l ++ acc) := by
    intro l
    induction l with
    | nil => intro acc; exact List.Perm.refl _
    | cons x xs ih =>
        intro acc
        rw [List.foldl_cons]
        refine (ih (insStable acc x)).trans ?_
        refine (List.Perm.append_left xs (insStable_perm acc x)).trans ?_
        exact List.perm_middle
  simpa using key l []

theorem insStable_sorted {acc : List (String × Nat)}
    (h : List.Sorted (fun a b : String × Nat => b.2 ≤ a.2) acc) (x : String × Nat) :
    List.Sorted (fun a b : String × Nat => b.2 ≤ a.2) (insStable acc x) := by
  induction acc with
  | nil => simp [insStable]
  | cons y rest ih =>
      rw [List.sorted_cons] at h
      unfold insStable
      split
      · rename_i hlt
        rw [List.sorted_cons]
        refine ⟨?_, (List.sorted_cons).mpr h⟩
        intro b hb
        rw [List.mem_cons] at hb
        rcases hb with rfl | hb
        · exact le_of_lt hlt
        · exact le_trans (h.1 b hb) (le_of_lt hlt)
      · rename_i hnlt
        rw [List.sorted_cons]
        constructor
        · intro b hb
          have hb2 : b = x ∨ b ∈ rest := by
            have hp := (insStable_perm rest x).mem_iff.mp hb
            simpa using hp
          rcases hb2 with rfl | hb2
          · exact Nat.le_of_not_lt hnlt
          · exact h.1 b hb2
        · exact ih h.2

theorem sortByCountDesc_sorted (l : List (String × Nat)) :
    List.Sorted (fun a b : String × Nat => b.2 ≤ a.2) (sortByCountDesc l) := by
  have key : ∀ (l acc : List (String × Nat)),
      List.Sorted (fun a b : String × Nat => b.2 ≤ a.2) acc →
      List.Sorted (fun a b : String × Nat => b.2 ≤ a.2) (l.foldl insStable acc) := by
    intro l
    induction l with
    | nil => exact fun acc h => h
    | cons x xs ih =>
        intro acc h
        rw [List.foldl_cons]
        exact ih _ (insStable_sorted h x)
  exact key l [] (by simp)

/-- Claim C7, counterexample: the same two task identifiers in opposite
orders on two rows form the unordered pair twice (count two), yet the
miner keys pairs by the position-ordered dash-joined string, so each
key has count one and no coRun recommendation is emitted. -/
theorem corun_unordered_pairs_counterexample :
    allPairs c7cexClients = ["T1-T2", "T2-T1"]
    ∧ generateRuleRecommendations ⟨c7cexClients, [], []⟩ = [] :=
  ⟨by rfl, by rfl⟩

/-- Claim C7 as amended: the miner tallies position-ordered dash-joined
pairs (its count of a key equals the key's number of occurrences among
all in-row ordered pairs, so reversed orders are distinct keys), keeps
the top three entries of the tally sorted by descending count, and the
coRun recommendations of the output are exactly the kept pairs of
count at least two, built with confidence min(count / 5, 0.9); the
spec's concrete example behaves as stated. -/
theorem corun_mining_characterization :
    (∀ ds : Datasets, ∀ p : String,
        tallyCount p (taskCooccurrence ds.clients) = countOcc p (allPairs ds.clients))
    ∧ (∀ ds : Datasets,
        (generateRuleRecommendations ds).filter (fun r => decide (r.rtype = "coRun"))
          = ((sortByCountDesc (taskCooccurrence ds.clients)).take 3).filterMap
              (fun pc => if 2 ≤ pc.2 then some (mkCoRunRec pc.1 pc.2) else none))
    ∧ (∀ l : List (String × Nat),
        (sortByCountDesc l).Perm l
        ∧ List.Sorted (fun a b : String × Nat => b.2 ≤ a.2) (sortByCountDesc l))
    ∧ generateRuleRecommendations ⟨c7exClients, [], []⟩ = [mkCoRunRec "T1-T2" 2]
    ∧ (mkCoRunRec "T1-T2" 2).confidence = 2 / 5
    ∧ (mkCoRunRec "T1-T2" 2).params = RecParams.taskIds "T1" "T2" := by
  refine ⟨?_, ?_, ?_, by rfl, by norm_num [mkCoRunRec, ratMin], by rfl⟩
  · intro ds p
    unfold taskCooccurrence
    rw [tallyCount_foldl]
    simp [tallyCount]
  · intro ds
    exact corun_filter ds
  · intro l
    exact ⟨sortByCountDesc_perm l, sortByCountDesc_sorted l⟩
